import Mathlib

/-!
Shallow embedding of the Greenhouse-IoT-Simulation core loop:
the rule-based controller (`greenhouse/services/decision.py`), the
environment simulator (`greenhouse/services/data_generator.py`), and the
command-application step (`greenhouse/management/commands/generate_training_data.py`,
`greenhouse/services/simulation_runner.py`).  Machine floats are modelled by `ℚ`;
random draws are modelled by explicitly quantified inputs constrained to the
interval the corresponding `random.uniform` / `random.choice` call draws from.
-/

set_option maxHeartbeats 1000000

/-- The five weather regimes appearing in `GreenhouseDataGenerator.WEATHER_TARGETS`. -/
inductive Weather where
  | Sunny
  | Clear_sky
  | Cloudy
  | Rainy
  | Windy
deriving DecidableEq, Repr

/-- The equipment registry (`EquipmentState` rows, one per equipment kind,
`is_active` flag each).  The seven kinds are fixed by `EquipmentState.EQUIPMENT_CHOICES`. -/
structure Registry where
  heater : Bool
  ventilation : Bool
  irrigation : Bool
  co2_injector : Bool
  lights : Bool
  dehumidifier : Bool
  light_blinds : Bool
deriving DecidableEq, Repr

/-- A `GreenhouseCommand`: one boolean per equipment kind. -/
structure Command where
  heater : Bool
  ventilation : Bool
  irrigation : Bool
  co2_injector : Bool
  lights : Bool
  dehumidifier : Bool
  light_blinds : Bool
deriving DecidableEq, Repr

/-- A `GreenhouseReading`: the five sensor metrics plus the weather tag and tick index. -/
structure Reading where
  temperature : ℚ
  humidity : ℚ
  soil_moisture : ℚ
  light_intensity : ℚ
  co2_concentration : ℚ
  weather : Weather
  tick : ℕ
deriving DecidableEq, Repr

/-- The threshold configuration `GreenhouseThresholds` (decision.py, lines 5-27). -/
structure GreenhouseThresholds where
  TEMP_MIN : ℚ
  TEMP_MAX : ℚ
  TEMP_BUFFER : ℚ
  HUM_MIN : ℚ
  HUM_MAX : ℚ
  HUM_BUFFER : ℚ
  SOIL_MIN : ℚ
  SOIL_BUFFER : ℚ
  CO2_MIN : ℚ
  CO2_BUFFER : ℚ
  LIGHT_MIN_GROWTH : ℚ
  LIGHT_MAX_STRESS : ℚ
deriving DecidableEq, Repr

/-- The default thresholds (the dataclass default values in decision.py). -/
def defaultThresholds : GreenhouseThresholds where
  TEMP_MIN := 20
  TEMP_MAX := 25
  TEMP_BUFFER := 3/2
  HUM_MIN := 50
  HUM_MAX := 80
  HUM_BUFFER := 5
  SOIL_MIN := 40
  SOIL_BUFFER := 5
  CO2_MIN := 450
  CO2_BUFFER := 50
  LIGHT_MIN_GROWTH := 5000
  LIGHT_MAX_STRESS := 50000

namespace GreenhouseDecisionModel

/-! `GreenhouseDecisionModel.decide` (decision.py, lines 41-180), translated
assignment by assignment: the mutable `cmd` object is modelled by one
definition per assignment target and program point, each later definition
superseding the earlier value of the same field; `is_on(name)` is the
corresponding registry field (the registry is the fully populated
`EquipmentState` table). -/

/-- Step 1 heater rule: on below `TEMP_MIN`; hysteresis up to `TEMP_MIN + TEMP_BUFFER`
when already on (decision.py, lines 66-71). -/
def heater1 (cfg : GreenhouseThresholds) (p : Reading) (st : Registry) : Bool :=
  if p.temperature < cfg.TEMP_MIN then true
  else if st.heater then
    (if p.temperature ≤ cfg.TEMP_MIN + cfg.TEMP_BUFFER then true else false)
  else false

/-- Step 1 ventilation rule: on above `TEMP_MAX`; hysteresis down to
`TEMP_MAX - TEMP_BUFFER` when already on (decision.py, lines 74-79). -/
def vent1 (cfg : GreenhouseThresholds) (p : Reading) (st : Registry) : Bool :=
  if p.temperature > cfg.TEMP_MAX then true
  else if st.ventilation then
    (if p.temperature ≥ cfg.TEMP_MAX - cfg.TEMP_BUFFER then true else false)
  else false

/-- Heater after the temperature conflict block (decision.py, lines 83-87). -/
def heater2 (cfg : GreenhouseThresholds) (p : Reading) (st : Registry) : Bool :=
  if heater1 cfg p st ∧ vent1 cfg p st then
    (if p.temperature > cfg.TEMP_MAX then false else heater1 cfg p st)
  else heater1 cfg p st

/-- Ventilation after the temperature conflict block (decision.py, lines 83-87). -/
def vent2 (cfg : GreenhouseThresholds) (p : Reading) (st : Registry) : Bool :=
  if heater1 cfg p st ∧ vent1 cfg p st then
    (if p.temperature > cfg.TEMP_MAX then vent1 cfg p st else false)
  else vent1 cfg p st

/-- Light blinds after the light-control block (decision.py, lines 93-109). -/
def blinds3 (cfg : GreenhouseThresholds) (p : Reading) (st : Registry) : Bool :=
  if p.light_intensity > cfg.LIGHT_MAX_STRESS then true
  else if p.light_intensity < cfg.LIGHT_MIN_GROWTH then false
  else st.light_blinds

/-- Lights after the light-control block (decision.py, lines 93-109). -/
def lights3 (cfg : GreenhouseThresholds) (p : Reading) (st : Registry) : Bool :=
  if p.light_intensity > cfg.LIGHT_MAX_STRESS then false
  else if p.light_intensity < cfg.LIGHT_MIN_GROWTH then
    (if p.temperature ≥ cfg.TEMP_MAX - 1/2 then false else true)
  else st.lights

/-- Ventilation after the humidity block: high humidity re-enables ventilation
when the temperature has slack above `TEMP_MIN + 0.5` (decision.py, lines 117-120). -/
def vent3 (cfg : GreenhouseThresholds) (p : Reading) (st : Registry) : Bool :=
  if p.humidity > cfg.HUM_MAX then
    (if p.temperature > cfg.TEMP_MIN + 1/2 then true else vent2 cfg p st)
  else vent2 cfg p st

/-- Dehumidifier after the humidity block (decision.py, lines 117-133). -/
def dehum3 (cfg : GreenhouseThresholds) (p : Reading) (st : Registry) : Bool :=
  if p.humidity > cfg.HUM_MAX then
    (if p.temperature > cfg.TEMP_MIN + 1/2 then false else true)
  else if p.humidity < cfg.HUM_MIN then false
  else if st.dehumidifier then
    (if p.humidity ≥ cfg.HUM_MAX - cfg.HUM_BUFFER then true else false)
  else false

/-- Irrigation after the soil-moisture block (decision.py, lines 139-149). -/
def irr4 (cfg : GreenhouseThresholds) (p : Reading) (st : Registry) : Bool :=
  if p.soil_moisture < cfg.SOIL_MIN then
    (if p.humidity > cfg.HUM_MAX - 2 then false else true)
  else if st.irrigation then
    (if p.soil_moisture ≤ cfg.SOIL_MIN + cfg.SOIL_BUFFER then true else false)
  else false

/-- CO2 injector after the CO2 block: forced off while ventilating
(decision.py, lines 155-164). -/
def co25 (cfg : GreenhouseThresholds) (p : Reading) (st : Registry) : Bool :=
  if vent3 cfg p st then false
  else if p.co2_concentration < cfg.CO2_MIN then true
  else if st.co2_injector then
    (if p.co2_concentration ≤ cfg.CO2_MIN + cfg.CO2_BUFFER then true else false)
  else false

/-- Lights after the final conflict pass (decision.py, lines 170-173). -/
def lights6 (cfg : GreenhouseThresholds) (p : Reading) (st : Registry) : Bool :=
  if vent3 cfg p st ∧ p.temperature ≥ cfg.TEMP_MAX then false else lights3 cfg p st

/-- Dehumidifier after the final conflict pass (decision.py, lines 170-173). -/
def dehum6 (cfg : GreenhouseThresholds) (p : Reading) (st : Registry) : Bool :=
  if vent3 cfg p st ∧ p.temperature ≥ cfg.TEMP_MAX then false else dehum3 cfg p st

/-- Ventilation after the final conflict pass (decision.py, lines 176-178). -/
def vent7 (cfg : GreenhouseThresholds) (p : Reading) (st : Registry) : Bool :=
  if heater2 cfg p st ∧ p.temperature ≤ cfg.TEMP_MIN then
    (if p.humidity ≤ cfg.HUM_MAX + 5 then false else vent3 cfg p st)
  else vent3 cfg p st

/-- The assembled `decide` output command. -/
def decide (cfg : GreenhouseThresholds) (p : Reading) (st : Registry) : Command where
  heater := heater2 cfg p st
  ventilation := vent7 cfg p st
  irrigation := irr4 cfg p st
  co2_injector := co25 cfg p st
  lights := lights6 cfg p st
  dehumidifier := dehum6 cfg p st
  light_blinds := blinds3 cfg p st

end GreenhouseDecisionModel

/-- The all-off registry. -/
def Registry.allOff : Registry :=
  ⟨false, false, false, false, false, false, false⟩

/-- `apply_command_to_equipment_state` (generate_training_data.py, lines 18-24) and
`apply_equipment_state` (simulation_runner.py, lines 22-27): overwrite every
equipment row's `is_active` with the command's boolean for that kind. -/
def applyCommand (c : Command) (_r : Registry) : Registry :=
  ⟨c.heater, c.ventilation, c.irrigation, c.co2_injector, c.lights,
   c.dehumidifier, c.light_blinds⟩

/-- The registry before tick `n` of the closed loop of
`generate_training_data.py` (lines 100-105): each tick's command is applied to
the equipment state before the next `decide` call. -/
def loopRegistry (cfg : GreenhouseThresholds) (readings : ℕ → Reading) (st0 : Registry) :
    ℕ → Registry
  | 0 => st0
  | n + 1 =>
      applyCommand
        (GreenhouseDecisionModel.decide cfg (readings n) (loopRegistry cfg readings st0 n))
        (loopRegistry cfg readings st0 n)

/-- The command decided at tick `n` of the closed loop. -/
def loopCommand (cfg : GreenhouseThresholds) (readings : ℕ → Reading) (st0 : Registry)
    (n : ℕ) : Command :=
  GreenhouseDecisionModel.decide cfg (readings n) (loopRegistry cfg readings st0 n)

/-- A vector of the five environment metrics (either a current state, a target,
or the metric part of a reading). -/
structure MetricVec where
  temperature : ℚ
  humidity : ℚ
  soil_moisture : ℚ
  light_intensity : ℚ
  co2_concentration : ℚ
deriving DecidableEq, Repr

namespace GreenhouseDataGenerator

/-- `GreenhouseDataGenerator.WEATHER_TARGETS` (data_generator.py, lines 8-44). -/
def WEATHER_TARGETS : Weather → MetricVec
  | .Sunny => ⟨28, 45, 50, 35000, 400⟩
  | .Clear_sky => ⟨23, 60, 55, 15000, 400⟩
  | .Cloudy => ⟨19, 75, 58, 5000, 400⟩
  | .Rainy => ⟨16, 90, 75, 2000, 400⟩
  | .Windy => ⟨20, 50, 48, 12000, 380⟩

/-- The seven equipment kinds (keys of `EQUIPMENT_TARGETS`, in dict order). -/
inductive EquipmentKind where
  | heater
  | ventilation
  | irrigation
  | co2_injector
  | lights
  | dehumidifier
  | light_blinds
deriving DecidableEq, Repr

/-- `GreenhouseDataGenerator.EQUIPMENT_TARGETS` (data_generator.py, lines 47-74):
the per-metric target deltas of each equipment kind, zero for metrics the dict
entry does not mention (`targets.get(metric, 0) + delta`). -/
def EQUIPMENT_TARGETS : EquipmentKind → MetricVec
  | .heater => ⟨8, 0, 0, 0, 0⟩
  | .ventilation => ⟨-8, -15, 0, 0, -50⟩
  | .irrigation => ⟨0, 5, 25, 0, 0⟩
  | .co2_injector => ⟨0, 0, 0, 0, 300⟩
  | .lights => ⟨2, 0, 0, 15000, 0⟩
  | .dehumidifier => ⟨3/2, -20, 0, 0, 0⟩
  | .light_blinds => ⟨0, 0, 0, -10000, 0⟩

/-- The list of all equipment kinds, in declaration order. -/
def EQUIPMENT : List EquipmentKind :=
  [.heater, .ventilation, .irrigation, .co2_injector, .lights, .dehumidifier, .light_blinds]

/-- Whether an equipment kind is active in the registry. -/
def isActive (reg : Registry) : EquipmentKind → Bool
  | .heater => reg.heater
  | .ventilation => reg.ventilation
  | .irrigation => reg.irrigation
  | .co2_injector => reg.co2_injector
  | .lights => reg.lights
  | .dehumidifier => reg.dehumidifier
  | .light_blinds => reg.light_blinds

/-- Componentwise sum of two metric vectors. -/
def addVec (a b : MetricVec) : MetricVec :=
  ⟨a.temperature + b.temperature, a.humidity + b.humidity,
   a.soil_moisture + b.soil_moisture, a.light_intensity + b.light_intensity,
   a.co2_concentration + b.co2_concentration⟩

/-- `GreenhouseDataGenerator._calculate_targets` (data_generator.py, lines 345-357):
start from the weather targets and add the target deltas of every equipment that
is active in the registry. -/
def calculateTargets (w : Weather) (reg : Registry) : MetricVec :=
  ((EQUIPMENT.filter (isActive reg)).map EQUIPMENT_TARGETS).foldl addVec (WEATHER_TARGETS w)

/-- `GreenhouseDataGenerator.CONVERGENCE_RATES` (data_generator.py, lines 78-84),
as a vector indexed by metric. -/
def CONVERGENCE_RATES : MetricVec :=
  ⟨8/100, 10/100, 5/100, 15/100, 12/100⟩

/-- `GreenhouseDataGenerator._move_toward_targets` (data_generator.py, lines 373-394):
each metric moves toward its target by its convergence rate. -/
def moveTowardTargets (targets m : MetricVec) : MetricVec where
  temperature :=
    m.temperature + (targets.temperature - m.temperature) * CONVERGENCE_RATES.temperature
  humidity :=
    m.humidity + (targets.humidity - m.humidity) * CONVERGENCE_RATES.humidity
  soil_moisture :=
    m.soil_moisture + (targets.soil_moisture - m.soil_moisture) * CONVERGENCE_RATES.soil_moisture
  light_intensity :=
    m.light_intensity + (targets.light_intensity - m.light_intensity) * CONVERGENCE_RATES.light_intensity
  co2_concentration :=
    m.co2_concentration + (targets.co2_concentration - m.co2_concentration) * CONVERGENCE_RATES.co2_concentration

/-- Python's `max(lo, min(hi, v))`. -/
def constrain (lo hi v : ℚ) : ℚ := max lo (min hi v)

/-- `GreenhouseDataGenerator._constrain_values` (data_generator.py, lines 418-424). -/
def constrainValues (m : MetricVec) : MetricVec where
  temperature := constrain 0 50 m.temperature
  humidity := constrain 0 100 m.humidity
  soil_moisture := constrain 0 100 m.soil_moisture
  light_intensity := constrain 0 100000 m.light_intensity
  co2_concentration := constrain 300 2000 m.co2_concentration

/-- `GreenhouseDataGenerator.WEATHER_TRANSITIONS` (data_generator.py, lines 87-93),
over the weather enum. -/
def WEATHER_TRANSITIONS : Weather → List Weather
  | .Sunny => [.Cloudy, .Clear_sky, .Windy]
  | .Clear_sky => [.Cloudy, .Sunny, .Windy]
  | .Cloudy => [.Sunny, .Clear_sky, .Rainy, .Windy]
  | .Rainy => [.Cloudy, .Windy]
  | .Windy => [.Cloudy, .Clear_sky, .Rainy]

/-- The internal state of `GreenhouseDataGenerator`: tick counter, current
weather, and the five `current_*` metric values. -/
structure GenState where
  tick : ℕ
  weather : Weather
  metrics : MetricVec
deriving DecidableEq, Repr

/-- One `generate_reading` state advance (data_generator.py, lines 318-332):
increment the tick; on ticks divisible by 40 change the weather (to `pick`,
which theorems constrain to `WEATHER_TRANSITIONS` of the old weather); compute
targets from the (possibly new) weather and the registry; move toward them and
clamp.  The sensor noise of the emitted reading is handled by `createReading`
and does not touch this state. -/
def stepState (s : GenState) (reg : Registry) (pick : Weather) : GenState :=
  let t := s.tick + 1
  let w := if t % 40 = 0 then pick else s.weather
  { tick := t
    weather := w
    metrics := constrainValues (moveTowardTargets (calculateTargets w reg) s.metrics) }

/-- `GreenhouseDataGenerator._add_noise` (data_generator.py, lines 426-429):
`value + uniform(-value*pct/100, value*pct/100)`, the uniform draw modelled as
`value*pct/100 * eps` with `eps` in `[-1, 1]`. -/
def addNoise (value pct eps : ℚ) : ℚ :=
  value + value * (pct / 100) * eps

/-- One noise draw per metric (each scaled into `[-1,1]`). -/
structure NoiseVec where
  temperature : ℚ
  humidity : ℚ
  soil_moisture : ℚ
  light_intensity : ℚ
  co2_concentration : ℚ
deriving DecidableEq, Repr

/-- The noise draws are in the interval `random.uniform` draws from. -/
def NoiseOK (e : NoiseVec) : Prop :=
  -1 ≤ e.temperature ∧ e.temperature ≤ 1 ∧
  -1 ≤ e.humidity ∧ e.humidity ≤ 1 ∧
  -1 ≤ e.soil_moisture ∧ e.soil_moisture ≤ 1 ∧
  -1 ≤ e.light_intensity ∧ e.light_intensity ≤ 1 ∧
  -1 ≤ e.co2_concentration ∧ e.co2_concentration ≤ 1

instance : DecidablePred NoiseOK := fun e => by
  unfold NoiseOK; infer_instance

/-- `GreenhouseDataGenerator._create_reading` (data_generator.py, lines 431-443):
emit a reading equal to the current state plus per-metric multiplicative noise
(temperature 0.5%, humidity 1%, soil 1.5%, light 2%, CO2 1%). -/
def createReading (s : GenState) (e : NoiseVec) : Reading where
  temperature := addNoise s.metrics.temperature (1/2) e.temperature
  humidity := addNoise s.metrics.humidity 1 e.humidity
  soil_moisture := addNoise s.metrics.soil_moisture (3/2) e.soil_moisture
  light_intensity := addNoise s.metrics.light_intensity 2 e.light_intensity
  co2_concentration := addNoise s.metrics.co2_concentration 1 e.co2_concentration
  weather := s.weather
  tick := s.tick

/-- `GreenhouseDataGenerator.generate_reading` in full: advance the state, then
create the (noisy) reading from the new state. -/
def generateReading (s : GenState) (reg : Registry) (pick : Weather) (e : NoiseVec) :
    GenState × Reading :=
  let s2 := stepState s reg pick
  (s2, createReading s2 e)

/-- A starting-config scalar entry: either a literal or a `random.uniform(lo, hi)` callable. -/
inductive ConfigVal where
  | lit (q : ℚ)
  | range (lo hi : ℚ)
deriving DecidableEq, Repr

/-- A starting-config weather entry: either a literal or a `random.choice(ws)` callable. -/
inductive WeatherVal where
  | lit (w : Weather)
  | choice (ws : List Weather)
deriving DecidableEq, Repr

/-- A starting-config equipment entry: either a literal or a `random.choice([True, False])`. -/
inductive BoolVal where
  | lit (b : Bool)
  | coin
deriving DecidableEq, Repr

/-- The equipment part of a starting configuration. -/
structure EquipmentConfig where
  heater : BoolVal
  ventilation : BoolVal
  irrigation : BoolVal
  co2_injector : BoolVal
  lights : BoolVal
  dehumidifier : BoolVal
  light_blinds : BoolVal
deriving DecidableEq, Repr

/-- One named entry of `GreenhouseDataGenerator.STARTING_CONFIGS`. -/
structure StartConfig where
  temperature : ConfigVal
  humidity : ConfigVal
  soil_moisture : ConfigVal
  light_intensity : ConfigVal
  co2_concentration : ConfigVal
  weather : WeatherVal
  equipment : EquipmentConfig
deriving DecidableEq, Repr

/-- An all-literal equipment configuration. -/
def litEquip (h v i c l d b : Bool) : EquipmentConfig :=
  ⟨.lit h, .lit v, .lit i, .lit c, .lit l, .lit d, .lit b⟩

/-- `STARTING_CONFIGS['optimal']` (data_generator.py, lines 97-113). -/
def optimalConfig : StartConfig :=
  ⟨.lit 22, .lit 65, .lit 60, .lit 5000, .lit 400, .lit .Clear_sky,
   litEquip false false false false false false false⟩

/-- `STARTING_CONFIGS['cold_start']` (lines 114-130). -/
def coldStartConfig : StartConfig :=
  ⟨.lit 15, .lit 80, .lit 45, .lit 1000, .lit 350, .lit .Cloudy,
   litEquip true false true false true false false⟩

/-- `STARTING_CONFIGS['hot_humid']` (lines 131-147). -/
def hotHumidConfig : StartConfig :=
  ⟨.lit 30, .lit 85, .lit 70, .lit 8000, .lit 450, .lit .Sunny,
   litEquip false true false false false true false⟩

/-- `STARTING_CONFIGS['random']` (lines 148-164). -/
def randomConfig : StartConfig :=
  ⟨.range 18 28, .range 50 80, .range 40 70, .range 2000 8000, .range 350 500,
   .choice [.Sunny, .Clear_sky, .Cloudy, .Rainy, .Windy],
   ⟨.coin, .coin, .coin, .coin, .coin, .coin, .coin⟩⟩

/-- `STARTING_CONFIGS['night_cold']` (lines 165-176). -/
def nightColdConfig : StartConfig :=
  ⟨.lit 14, .lit 70, .lit 55, .lit 300, .lit 420, .lit .Clear_sky,
   litEquip false false false false false false false⟩

/-- `STARTING_CONFIGS['heat_stress']` (lines 177-188). -/
def heatStressConfig : StartConfig :=
  ⟨.lit 38, .lit 40, .lit 45, .lit 60000, .lit 430, .lit .Sunny,
   litEquip false false false false true false false⟩

/-- `STARTING_CONFIGS['mold_risk']` (lines 189-200). -/
def moldRiskConfig : StartConfig :=
  ⟨.lit 18, .lit 95, .lit 70, .lit 4000, .lit 420, .lit .Rainy,
   litEquip false false true false false false false⟩

/-- `STARTING_CONFIGS['drought']` (lines 201-212). -/
def droughtConfig : StartConfig :=
  ⟨.lit 26, .lit 35, .lit 10, .lit 12000, .lit 420, .lit .Windy,
   litEquip false false false false false false false⟩

/-- `STARTING_CONFIGS['sensor_glitch']` (lines 213-224). -/
def sensorGlitchConfig : StartConfig :=
  ⟨.lit 0, .lit 0, .lit 0, .lit 0, .lit 2000, .lit .Clear_sky,
   litEquip false false false true true true false⟩

/-- `STARTING_CONFIGS['conflict_start']` (lines 225-241). -/
def conflictStartConfig : StartConfig :=
  ⟨.lit 22, .lit 65, .lit 55, .lit 7000, .lit 450, .lit .Clear_sky,
   litEquip true true false true true true true⟩

/-- The keys of `STARTING_CONFIGS`, in dict order. -/
def STARTING_CONFIG_KEYS : List String :=
  ["optimal", "cold_start", "hot_humid", "random", "night_cold",
   "heat_stress", "mold_risk", "drought", "sensor_glitch", "conflict_start"]

/-- `self.STARTING_CONFIGS.get(self.config_name, self.STARTING_CONFIGS['optimal'])`
(data_generator.py, line 270): dictionary lookup with fallback to `optimal`. -/
def configFor (name : String) : StartConfig :=
  if name = "optimal" then optimalConfig
  else if name = "cold_start" then coldStartConfig
  else if name = "hot_humid" then hotHumidConfig
  else if name = "random" then randomConfig
  else if name = "night_cold" then nightColdConfig
  else if name = "heat_stress" then heatStressConfig
  else if name = "mold_risk" then moldRiskConfig
  else if name = "drought" then droughtConfig
  else if name = "sensor_glitch" then sensorGlitchConfig
  else if name = "conflict_start" then conflictStartConfig
  else optimalConfig

/-- The random draws `initialize` consumes when config entries are callables
(ignored for literal entries). -/
structure Draw where
  temperature : ℚ
  humidity : ℚ
  soil_moisture : ℚ
  light_intensity : ℚ
  co2_concentration : ℚ
  weather : Weather
  equipment : Registry
deriving DecidableEq, Repr

/-- `config['x']() if callable(config['x']) else config['x']`. -/
def resolveVal : ConfigVal → ℚ → ℚ
  | .lit q, _ => q
  | .range _ _, d => d

/-- Resolve a weather entry. -/
def resolveWeather : WeatherVal → Weather → Weather
  | .lit w, _ => w
  | .choice _, d => d

/-- Resolve an equipment entry. -/
def resolveBool : BoolVal → Bool → Bool
  | .lit b, _ => b
  | .coin, d => d

/-- A scalar draw lies in the range its `random.uniform(lo, hi)` call draws from. -/
def valOK : ConfigVal → ℚ → Prop
  | .lit _, _ => True
  | .range lo hi, d => lo ≤ d ∧ d ≤ hi

/-- A weather draw is one of the choices its `random.choice(ws)` call draws from. -/
def weatherOK : WeatherVal → Weather → Prop
  | .lit _, _ => True
  | .choice ws, d => d ∈ ws

/-- The draws are admissible for the given starting configuration. -/
def DrawOK (c : StartConfig) (d : Draw) : Prop :=
  valOK c.temperature d.temperature ∧
  valOK c.humidity d.humidity ∧
  valOK c.soil_moisture d.soil_moisture ∧
  valOK c.light_intensity d.light_intensity ∧
  valOK c.co2_concentration d.co2_concentration ∧
  weatherOK c.weather d.weather

/-- The generator state set up by `GreenhouseDataGenerator.initialize`
(data_generator.py, lines 262-290): tick 0, metrics/weather resolved from the
named starting configuration (falling back to `optimal`). -/
def initState (name : String) (d : Draw) : GenState :=
  let c := configFor name
  { tick := 0
    weather := resolveWeather c.weather d.weather
    metrics :=
      ⟨resolveVal c.temperature d.temperature,
       resolveVal c.humidity d.humidity,
       resolveVal c.soil_moisture d.soil_moisture,
       resolveVal c.light_intensity d.light_intensity,
       resolveVal c.co2_concentration d.co2_concentration⟩ }

/-- The equipment registry set up by `initialize` via `_initialize_equipment`. -/
def initRegistry (name : String) (d : Draw) : Registry :=
  let e := (configFor name).equipment
  ⟨resolveBool e.heater d.equipment.heater,
   resolveBool e.ventilation d.equipment.ventilation,
   resolveBool e.irrigation d.equipment.irrigation,
   resolveBool e.co2_injector d.equipment.co2_injector,
   resolveBool e.lights d.equipment.lights,
   resolveBool e.dehumidifier d.equipment.dehumidifier,
   resolveBool e.light_blinds d.equipment.light_blinds⟩

/-- The first reading returned by `initialize` (it calls `_create_reading()`
directly, without stepping). -/
def initReading (name : String) (d : Draw) (e : NoiseVec) : Reading :=
  createReading (initState name d) e

/-- The generator states reachable by `initialize` followed by any number of
`generate_reading` calls, under any evolution of the equipment registry and any
admissible weather draws. -/
inductive Reachable : GenState → Prop where
  | init (name : String) (d : Draw) (h : DrawOK (configFor name) d) :
      Reachable (initState name d)
  | step (s : GenState) (reg : Registry) (pick : Weather) (h : Reachable s)
      (hpick : pick ∈ WEATHER_TRANSITIONS s.weather) :
      Reachable (stepState s reg pick)

/-- `WEATHER_TRANSITIONS` as the literal string-keyed dict of the source
(data_generator.py, lines 87-93), for properties about lookups of arbitrary
(possibly unknown) regime names. -/
def WEATHER_TRANSITIONS_STR : List (String × List String) :=
  [("Sunny", ["Cloudy", "Clear_sky", "Windy"]),
   ("Clear_sky", ["Cloudy", "Sunny", "Windy"]),
   ("Cloudy", ["Sunny", "Clear_sky", "Rainy", "Windy"]),
   ("Rainy", ["Cloudy", "Windy"]),
   ("Windy", ["Cloudy", "Clear_sky", "Rainy"])]

/-- `self.WEATHER_TRANSITIONS.get(self.current_weather, ['Clear_sky'])`
(data_generator.py, line 399). -/
def possibleWeathers (w : String) : List String :=
  (WEATHER_TRANSITIONS_STR.lookup w).getD ["Clear_sky"]

/-- `GreenhouseDataGenerator._change_weather` (data_generator.py, lines 397-403):
`random.choice(possible_weathers)`, the draw modelled by an index `i` into the
list (theorems quantify over `i < length`). -/
def changeWeatherStr (w : String) (i : ℕ) : String :=
  (possibleWeathers w).getD i "Clear_sky"

/-- The probability that `random.choice(l)` returns `x`: the number of positions
holding `x` over the length of `l`. -/
def choiceProb (l : List String) (x : String) : ℚ :=
  (l.count x : ℚ) / l.length

/-- The target computation in the words of the spec: the weather regime's target
value plus the sum of the per-metric deltas of every equipment active in the
registry. -/
def targetFromSpec (w : Weather) (reg : Registry) : MetricVec where
  temperature := (WEATHER_TARGETS w).temperature +
    ((EQUIPMENT.filter (isActive reg)).map (fun e => (EQUIPMENT_TARGETS e).temperature)).sum
  humidity := (WEATHER_TARGETS w).humidity +
    ((EQUIPMENT.filter (isActive reg)).map (fun e => (EQUIPMENT_TARGETS e).humidity)).sum
  soil_moisture := (WEATHER_TARGETS w).soil_moisture +
    ((EQUIPMENT.filter (isActive reg)).map (fun e => (EQUIPMENT_TARGETS e).soil_moisture)).sum
  light_intensity := (WEATHER_TARGETS w).light_intensity +
    ((EQUIPMENT.filter (isActive reg)).map (fun e => (EQUIPMENT_TARGETS e).light_intensity)).sum
  co2_concentration := (WEATHER_TARGETS w).co2_concentration +
    ((EQUIPMENT.filter (isActive reg)).map (fun e => (EQUIPMENT_TARGETS e).co2_concentration)).sum

/-- The clamp bounds of `_constrain_values`, as a predicate on an emitted reading. -/
def ReadingInBounds (r : Reading) : Prop :=
  0 ≤ r.temperature ∧ r.temperature ≤ 50 ∧
  0 ≤ r.humidity ∧ r.humidity ≤ 100 ∧
  0 ≤ r.soil_moisture ∧ r.soil_moisture ≤ 100 ∧
  0 ≤ r.light_intensity ∧ r.light_intensity ≤ 100000 ∧
  300 ≤ r.co2_concentration ∧ r.co2_concentration ≤ 2000

/-- Inductive invariant of the generator state: interval bounds for every
metric, a tightened CO2 bound once at least one step has run, and a
weather-phase-indexed bound on soil moisture (soil can only climb toward 100
during a Rainy stretch, which the 40-tick weather schedule cuts off). -/
def INV (s : GenState) : Prop :=
  0 ≤ s.metrics.temperature ∧ s.metrics.temperature ≤ 79/2 ∧
  0 ≤ s.metrics.humidity ∧ s.metrics.humidity ≤ 95 ∧
  0 ≤ s.metrics.soil_moisture ∧ s.metrics.soil_moisture ≤ 100 ∧
  0 ≤ s.metrics.light_intensity ∧ s.metrics.light_intensity ≤ 60000 ∧
  330 ≤ s.metrics.co2_concentration ∧ s.metrics.co2_concentration ≤ 2000 ∧
  (1 ≤ s.tick → s.metrics.co2_concentration ≤ 1844) ∧
  (s.weather = Weather.Rainy →
    s.metrics.soil_moisture ≤ 100 - 13 * (19/20 : ℚ) ^ (s.tick % 40 + 1)) ∧
  (s.weather ≠ Weather.Rainy →
    s.metrics.soil_moisture ≤ 83 + (31/2) * (19/20 : ℚ) ^ (s.tick % 40 + 1))

/-- Closed form of `_calculate_targets`: per metric, the weather target plus
the deltas of the active equipment that mention that metric. -/
theorem calculateTargets_closed (w : Weather) (reg : Registry) :
    calculateTargets w reg =
      ⟨(WEATHER_TARGETS w).temperature + (if reg.heater then 8 else 0)
          + (if reg.ventilation then -8 else 0) + (if reg.lights then 2 else 0)
          + (if reg.dehumidifier then 3/2 else 0),
       (WEATHER_TARGETS w).humidity + (if reg.ventilation then -15 else 0)
          + (if reg.irrigation then 5 else 0) + (if reg.dehumidifier then -20 else 0),
       (WEATHER_TARGETS w).soil_moisture + (if reg.irrigation then 25 else 0),
       (WEATHER_TARGETS w).light_intensity + (if reg.lights then 15000 else 0)
          + (if reg.light_blinds then -10000 else 0),
       (WEATHER_TARGETS w).co2_concentration + (if reg.ventilation then -50 else 0)
          + (if reg.co2_injector then 300 else 0)⟩ := by
  rcases reg with ⟨h, v, i, c, l, d, b⟩
  cases h <;> cases v <;> cases i <;> cases c <;> cases l <;> cases d <;> cases b <;>
    simp [calculateTargets, EQUIPMENT, isActive, EQUIPMENT_TARGETS, addVec,
      MetricVec.mk.injEq]

/-- The temperature target always lies in `[8, 39.5]`. -/
theorem targets_temperature_bounds (w : Weather) (reg : Registry) :
    8 ≤ (calculateTargets w reg).temperature ∧ (calculateTargets w reg).temperature ≤ 79/2 := by
  rw [calculateTargets_closed]
  have hw : 16 ≤ (WEATHER_TARGETS w).temperature ∧ (WEATHER_TARGETS w).temperature ≤ 28 := by
    cases w <;> norm_num [WEATHER_TARGETS]
  have h1 : (0:ℚ) ≤ (if reg.heater then (8:ℚ) else 0) ∧ (if reg.heater then (8:ℚ) else 0) ≤ 8 := by
    split <;> norm_num
  have h2 : (-8:ℚ) ≤ (if reg.ventilation then (-8:ℚ) else 0) ∧
      (if reg.ventilation then (-8:ℚ) else 0) ≤ 0 := by
    split <;> norm_num
  have h3 : (0:ℚ) ≤ (if reg.lights then (2:ℚ) else 0) ∧ (if reg.lights then (2:ℚ) else 0) ≤ 2 := by
    split <;> norm_num
  have h4 : (0:ℚ) ≤ (if reg.dehumidifier then (3/2:ℚ) else 0) ∧
      (if reg.dehumidifier then (3/2:ℚ) else 0) ≤ 3/2 := by
    split <;> norm_num
  dsimp only
  constructor <;> linarith [hw.1, hw.2, h1.1, h1.2, h2.1, h2.2, h3.1, h3.2, h4.1, h4.2]

/-- The humidity target always lies in `[10, 95]`. -/
theorem targets_humidity_bounds (w : Weather) (reg : Registry) :
    10 ≤ (calculateTargets w reg).humidity ∧ (calculateTargets w reg).humidity ≤ 95 := by
  rw [calculateTargets_closed]
  have hw : 45 ≤ (WEATHER_TARGETS w).humidity ∧ (WEATHER_TARGETS w).humidity ≤ 90 := by
    cases w <;> norm_num [WEATHER_TARGETS]
  have h1 : (-15:ℚ) ≤ (if reg.ventilation then (-15:ℚ) else 0) ∧
      (if reg.ventilation then (-15:ℚ) else 0) ≤ 0 := by
    split <;> norm_num
  have h2 : (0:ℚ) ≤ (if reg.irrigation then (5:ℚ) else 0) ∧
      (if reg.irrigation then (5:ℚ) else 0) ≤ 5 := by
    split <;> norm_num
  have h3 : (-20:ℚ) ≤ (if reg.dehumidifier then (-20:ℚ) else 0) ∧
      (if reg.dehumidifier then (-20:ℚ) else 0) ≤ 0 := by
    split <;> norm_num
  dsimp only
  constructor <;> linarith [hw.1, hw.2, h1.1, h1.2, h2.1, h2.2, h3.1, h3.2]

/-- The soil-moisture target lies in `[48, 100]`, and below `83` except under Rainy. -/
theorem targets_soil_bounds (w : Weather) (reg : Registry) :
    48 ≤ (calculateTargets w reg).soil_moisture ∧
      (calculateTargets w reg).soil_moisture ≤ 100 ∧
      (w ≠ Weather.Rainy → (calculateTargets w reg).soil_moisture ≤ 83) := by
  rw [calculateTargets_closed]
  dsimp only
  cases w <;> rcases reg with ⟨h, v, i, c, l, d, b⟩ <;> cases i <;>
    simp [WEATHER_TARGETS] <;> norm_num

/-- The light-intensity target always lies in `[-8000, 50000]`. -/
theorem targets_light_bounds (w : Weather) (reg : Registry) :
    -8000 ≤ (calculateTargets w reg).light_intensity ∧
      (calculateTargets w reg).light_intensity ≤ 50000 := by
  rw [calculateTargets_closed]
  have hw : 2000 ≤ (WEATHER_TARGETS w).light_intensity ∧
      (WEATHER_TARGETS w).light_intensity ≤ 35000 := by
    cases w <;> norm_num [WEATHER_TARGETS]
  have h1 : (0:ℚ) ≤ (if reg.lights then (15000:ℚ) else 0) ∧
      (if reg.lights then (15000:ℚ) else 0) ≤ 15000 := by
    split <;> norm_num
  have h2 : (-10000:ℚ) ≤ (if reg.light_blinds then (-10000:ℚ) else 0) ∧
      (if reg.light_blinds then (-10000:ℚ) else 0) ≤ 0 := by
    split <;> norm_num
  dsimp only
  constructor <;> linarith [hw.1, hw.2, h1.1, h1.2, h2.1, h2.2]

/-- The CO2 target always lies in `[330, 700]`. -/
theorem targets_co2_bounds (w : Weather) (reg : Registry) :
    330 ≤ (calculateTargets w reg).co2_concentration ∧
      (calculateTargets w reg).co2_concentration ≤ 700 := by
  rw [calculateTargets_closed]
  have hw : 380 ≤ (WEATHER_TARGETS w).co2_concentration ∧
      (WEATHER_TARGETS w).co2_concentration ≤ 400 := by
    cases w <;> norm_num [WEATHER_TARGETS]
  have h1 : (-50:ℚ) ≤ (if reg.ventilation then (-50:ℚ) else 0) ∧
      (if reg.ventilation then (-50:ℚ) else 0) ≤ 0 := by
    split <;> norm_num
  have h2 : (0:ℚ) ≤ (if reg.co2_injector then (300:ℚ) else 0) ∧
      (if reg.co2_injector then (300:ℚ) else 0) ≤ 300 := by
    split <;> norm_num
  dsimp only
  constructor <;> linarith [hw.1, hw.2, h1.1, h1.2, h2.1, h2.2]

theorem constrain_lb (lo hi v : ℚ) : lo ≤ constrain lo hi v :=
  le_max_left _ _

theorem constrain_ub (lo hi v : ℚ) (h : lo ≤ hi) : constrain lo hi v ≤ hi :=
  max_le h (min_le_left _ _)

theorem constrain_le_of (lo hi v B : ℚ) (hv : v ≤ B) (hlo : lo ≤ B) :
    constrain lo hi v ≤ B :=
  max_le hlo (le_trans (min_le_right _ _) hv)

theorem le_constrain_of (lo hi v A : ℚ) (hv : A ≤ v) (hhi : A ≤ hi) :
    A ≤ constrain lo hi v :=
  le_trans (le_min hhi hv) (le_max_right _ _)

theorem c40_upper : ((19 : ℚ)/20) ^ 40 ≤ 1286/10000 := by norm_num

theorem c40_lower : (1285/10000 : ℚ) ≤ ((19 : ℚ)/20) ^ 40 := by norm_num

/-- Noise never pushes a nonnegative value above `B * (1 + pct/100)`. -/
theorem addNoise_upper (v B pct eps : ℚ) (hv0 : 0 ≤ v) (hvB : v ≤ B)
    (hp : 0 ≤ pct) (he : eps ≤ 1) :
    addNoise v pct eps ≤ B * (1 + pct/100) := by
  have h1 : 0 ≤ v * (pct/100) * (1 - eps) := by
    apply mul_nonneg (mul_nonneg hv0 (by linarith)) (by linarith)
  have h2 : 0 ≤ (B - v) * (1 + pct/100) := by
    apply mul_nonneg (by linarith) (by linarith)
  unfold addNoise
  nlinarith [h1, h2]

/-- Noise never pushes a value that is at least `A ≥ 0` below `A * (1 - pct/100)`. -/
theorem addNoise_lower (v A pct eps : ℚ) (hA0 : 0 ≤ A) (hAv : A ≤ v)
    (hp0 : 0 ≤ pct) (hp1 : pct ≤ 100) (he : -1 ≤ eps) :
    A * (1 - pct/100) ≤ addNoise v pct eps := by
  have hv0 : 0 ≤ v := le_trans hA0 hAv
  have h1 : 0 ≤ v * (pct/100) * (1 + eps) := by
    apply mul_nonneg (mul_nonneg hv0 (by linarith)) (by linarith)
  have h2 : 0 ≤ (v - A) * (1 - pct/100) := by
    apply mul_nonneg (by linarith) (by linarith)
  unfold addNoise
  nlinarith [h1, h2]

theorem configFor_cases (name : String) :
    configFor name = optimalConfig ∨ configFor name = coldStartConfig ∨
    configFor name = hotHumidConfig ∨ configFor name = randomConfig ∨
    configFor name = nightColdConfig ∨ configFor name = heatStressConfig ∨
    configFor name = moldRiskConfig ∨ configFor name = droughtConfig ∨
    configFor name = sensorGlitchConfig ∨ configFor name = conflictStartConfig := by
  unfold configFor
  split_ifs <;> simp

/-- The invariant holds in every state `initialize` can produce. -/
theorem INV_init (name : String) (d : Draw) (h : DrawOK (configFor name) d) :
    INV (initState name d) := by
  rcases configFor_cases name with hc | hc | hc | hc | hc | hc | hc | hc | hc | hc <;>
    unfold initState <;> rw [hc] at h ⊢ <;> clear hc
  case inr.inr.inr.inl =>
    -- random: the draws are constrained to the documented ranges
    obtain ⟨h1, h2, h3, h4, h5, -⟩ := h
    simp only [randomConfig, valOK] at h1 h2 h3 h4 h5
    unfold INV
    simp only [resolveVal, resolveWeather, randomConfig]
    norm_num
    refine ⟨by linarith [h1.1], by linarith [h1.2], by linarith [h2.1], by linarith [h2.2],
      by linarith [h3.1], by linarith [h3.2], by linarith [h4.1], by linarith [h4.2],
      by linarith [h5.1], by linarith [h5.2], ?_, ?_⟩
    · intro _; linarith [h3.2]
    · intro _; linarith [h3.2]
  all_goals
    unfold INV
    norm_num [resolveVal, resolveWeather, optimalConfig, coldStartConfig, hotHumidConfig,
      nightColdConfig, heatStressConfig, moldRiskConfig, droughtConfig,
      sensorGlitchConfig, conflictStartConfig, litEquip]

/-- The invariant is preserved by every `generate_reading` state advance. -/
theorem INV_step (s : GenState) (reg : Registry) (pick : Weather)
    (hs : INV s) (hpick : pick ∈ WEATHER_TRANSITIONS s.weather) :
    INV (stepState s reg pick) := by
  obtain ⟨ht0, ht1, hh0, hh1, hs0, hs1, hl0, hl1, hc0, hc1, hc2, hrain, hnrain⟩ := hs
  have hX0 : (0:ℚ) ≤ (19/20 : ℚ) ^ (s.tick % 40 + 1) := by positivity
  have hX1 : ((19:ℚ)/20) ^ (s.tick % 40 + 1) ≤ 1 := pow_le_one₀ (by norm_num) (by norm_num)
  by_cases hmod : (s.tick + 1) % 40 = 0
  · have hw : stepState s reg pick =
        { tick := s.tick + 1, weather := pick,
          metrics := constrainValues (moveTowardTargets (calculateTargets pick reg) s.metrics) } := by
      simp [stepState, hmod]
    have h39 : s.tick % 40 = 39 := by omega
    rw [h39] at hrain hnrain
    obtain ⟨htt1, htt2⟩ := targets_temperature_bounds pick reg
    obtain ⟨hth1, hth2⟩ := targets_humidity_bounds pick reg
    obtain ⟨hts1, hts2, hts3⟩ := targets_soil_bounds pick reg
    obtain ⟨htl1, htl2⟩ := targets_light_bounds pick reg
    obtain ⟨htc1, htc2⟩ := targets_co2_bounds pick reg
    rw [hw]
    unfold INV constrainValues moveTowardTargets CONVERGENCE_RATES
    dsimp only
    rw [hmod]
    refine ⟨constrain_lb _ _ _, constrain_le_of _ _ _ _ (by linarith) (by norm_num),
      constrain_lb _ _ _, constrain_le_of _ _ _ _ (by linarith) (by norm_num),
      constrain_lb _ _ _, constrain_ub _ _ _ (by norm_num),
      constrain_lb _ _ _, constrain_le_of _ _ _ _ (by linarith) (by norm_num),
      le_constrain_of _ _ _ _ (by linarith) (by norm_num),
      constrain_le_of _ _ _ _ (by linarith) (by norm_num),
      fun _ => constrain_le_of _ _ _ _ (by linarith) (by norm_num), ?_, ?_⟩
    · -- entering a Rainy block: the previous block was not Rainy
      intro hpr
      have hold : s.weather ≠ Weather.Rainy := by
        intro he
        rw [he, hpr] at hpick
        simp [WEATHER_TRANSITIONS] at hpick
      have hsoil := hnrain hold
      have h40u := c40_upper
      apply constrain_le_of
      · rw [pow_one]
        linarith
      · rw [pow_one]; norm_num
    · -- entering a non-Rainy block
      intro hnpr
      have hsoil : s.metrics.soil_moisture ≤ 100 - 13 * ((19:ℚ)/20) ^ 40 := by
        by_cases hr : s.weather = Weather.Rainy
        · exact hrain hr
        · have := hnrain hr
          have := c40_upper
          linarith
      have htg := hts3 hnpr
      have h40l := c40_lower
      apply constrain_le_of
      · rw [pow_one]
        linarith
      · rw [pow_one]; norm_num
  · have hw : stepState s reg pick =
        { tick := s.tick + 1, weather := s.weather,
          metrics := constrainValues (moveTowardTargets (calculateTargets s.weather reg) s.metrics) } := by
      simp [stepState, hmod]
    have hmodp : (s.tick + 1) % 40 = s.tick % 40 + 1 := by omega
    obtain ⟨htt1, htt2⟩ := targets_temperature_bounds s.weather reg
    obtain ⟨hth1, hth2⟩ := targets_humidity_bounds s.weather reg
    obtain ⟨hts1, hts2, hts3⟩ := targets_soil_bounds s.weather reg
    obtain ⟨htl1, htl2⟩ := targets_light_bounds s.weather reg
    obtain ⟨htc1, htc2⟩ := targets_co2_bounds s.weather reg
    rw [hw]
    unfold INV constrainValues moveTowardTargets CONVERGENCE_RATES
    dsimp only
    rw [hmodp]
    have hpow : ((19:ℚ)/20) ^ (s.tick % 40 + 1 + 1) =
        ((19:ℚ)/20) ^ (s.tick % 40 + 1) * (19/20) := pow_succ _ _
    refine ⟨constrain_lb _ _ _, constrain_le_of _ _ _ _ (by linarith) (by norm_num),
      constrain_lb _ _ _, constrain_le_of _ _ _ _ (by linarith) (by norm_num),
      constrain_lb _ _ _, constrain_ub _ _ _ (by norm_num),
      constrain_lb _ _ _, constrain_le_of _ _ _ _ (by linarith) (by norm_num),
      le_constrain_of _ _ _ _ (by linarith) (by norm_num),
      constrain_le_of _ _ _ _ (by linarith) (by norm_num),
      fun _ => constrain_le_of _ _ _ _ (by linarith) (by norm_num), ?_, ?_⟩
    · -- continuing inside a Rainy block
      intro hwr
      have hsoil := hrain hwr
      apply constrain_le_of
      · rw [hpow]
        nlinarith [hsoil, hts2]
      · rw [hpow]
        nlinarith [hX0, hX1]
    · -- continuing inside a non-Rainy block
      intro hwnr
      have hsoil := hnrain hwnr
      have htg := hts3 hwnr
      apply constrain_le_of
      · rw [hpow]
        nlinarith [hsoil, htg]
      · rw [hpow]
        nlinarith [hX0, hX1]

/-- The invariant holds in every reachable generator state. -/
theorem INV_of_reachable (s : GenState) (h : Reachable s) : INV s := by
  induction h with
  | init name d hd => exact INV_init name d hd
  | step s reg pick hs hpick ih => exact INV_step s reg pick ih hpick

theorem foldl_addVec_temperature (l : List MetricVec) (a : MetricVec) :
    (l.foldl addVec a).temperature = a.temperature + (l.map MetricVec.temperature).sum := by
  induction l generalizing a with
  | nil => simp
  | cons x xs ih => simp [ih, addVec, add_assoc]

theorem foldl_addVec_humidity (l : List MetricVec) (a : MetricVec) :
    (l.foldl addVec a).humidity = a.humidity + (l.map MetricVec.humidity).sum := by
  induction l generalizing a with
  | nil => simp
  | cons x xs ih => simp [ih, addVec, add_assoc]

theorem foldl_addVec_soil (l : List MetricVec) (a : MetricVec) :
    (l.foldl addVec a).soil_moisture = a.soil_moisture + (l.map MetricVec.soil_moisture).sum := by
  induction l generalizing a with
  | nil => simp
  | cons x xs ih => simp [ih, addVec, add_assoc]

theorem foldl_addVec_light (l : List MetricVec) (a : MetricVec) :
    (l.foldl addVec a).light_intensity =
      a.light_intensity + (l.map MetricVec.light_intensity).sum := by
  induction l generalizing a with
  | nil => simp
  | cons x xs ih => simp [ih, addVec, add_assoc]

theorem foldl_addVec_co2 (l : List MetricVec) (a : MetricVec) :
    (l.foldl addVec a).co2_concentration =
      a.co2_concentration + (l.map MetricVec.co2_concentration).sum := by
  induction l generalizing a with
  | nil => simp
  | cons x xs ih => simp [ih, addVec, add_assoc]

/-- `_calculate_targets` agrees with the spec-side formulation `targetFromSpec`. -/
theorem calculateTargets_eq_spec (w : Weather) (reg : Registry) :
    calculateTargets w reg = targetFromSpec w reg := by
  unfold calculateTargets targetFromSpec
  refine MetricVec.mk.injEq _ _ _ _ _ _ _ _ _ _ |>.mpr ?_ |>.symm |>.symm
  refine ⟨?_, ?_, ?_, ?_, ?_⟩
  · rw [foldl_addVec_temperature, List.map_map]; rfl
  · rw [foldl_addVec_humidity, List.map_map]; rfl
  · rw [foldl_addVec_soil, List.map_map]; rfl
  · rw [foldl_addVec_light, List.map_map]; rfl
  · rw [foldl_addVec_co2, List.map_map]; rfl

end GreenhouseDataGenerator

namespace GreenhouseDecisionModel

/-- If the reading is below `TEMP_MIN`, `decide` turns the heater on
(for the default thresholds, where `TEMP_MIN < TEMP_MAX`). -/
theorem decide_heater_on_of_cold (p : Reading) (st : Registry)
    (h : p.temperature < defaultThresholds.TEMP_MIN) :
    (decide defaultThresholds p st).heater = true := by
  have hmax : ¬ p.temperature > defaultThresholds.TEMP_MAX := by
    simp only [defaultThresholds] at h ⊢
    push_neg
    linarith
  unfold decide heater2 heater1
  simp [h, hmax]

/-- If the heater is currently on and the reading stays at or below
`TEMP_MIN + TEMP_BUFFER`, `decide` keeps it on (default thresholds). -/
theorem decide_heater_stays (p : Reading) (st : Registry)
    (hst : st.heater = true)
    (h : p.temperature ≤ defaultThresholds.TEMP_MIN + defaultThresholds.TEMP_BUFFER) :
    (decide defaultThresholds p st).heater = true := by
  have hmax : ¬ p.temperature > defaultThresholds.TEMP_MAX := by
    simp only [defaultThresholds] at h ⊢
    push_neg
    linarith
  unfold decide heater2 heater1
  simp [hst, h, hmax]

/-- If the final ventilation output is on, ventilation was already on after the
humidity block (the final pass only ever switches ventilation off). -/
theorem vent7_eq_true_imp_vent3 (cfg : GreenhouseThresholds) (p : Reading) (st : Registry)
    (h : vent7 cfg p st = true) : vent3 cfg p st = true := by
  unfold vent7 at h
  split_ifs at h <;> simp_all

/-- After the step-1 conflict block, heater and ventilation are never both on. -/
theorem heater2_vent2_mutex (cfg : GreenhouseThresholds) (p : Reading) (st : Registry) :
    ¬(heater2 cfg p st = true ∧ vent2 cfg p st = true) := by
  unfold heater2 vent2
  split_ifs with h1 h2 <;> simp_all

end GreenhouseDecisionModel

/-! ## Claim theorems -/

/-- Claim C1, counterexample: with the heater held on by hysteresis
(registry heater ON, temperature 21 in `(TEMP_MIN, TEMP_MIN + TEMP_BUFFER]`) and
humidity 90 above `HUM_MAX`, the humidity rule re-enables ventilation and no
later pass clears it, so the returned Command has heater and ventilation both
ON — the claimed mutual exclusion fails. -/
theorem heater_vent_both_on_example :
    (GreenhouseDecisionModel.decide defaultThresholds
        ⟨21, 90, 50, 10000, 500, Weather.Clear_sky, 0⟩
        ⟨true, false, false, false, false, false, false⟩).heater = true ∧
    (GreenhouseDecisionModel.decide defaultThresholds
        ⟨21, 90, 50, 10000, 500, Weather.Clear_sky, 0⟩
        ⟨true, false, false, false, false, false, false⟩).ventilation = true := by
  constructor <;>
    norm_num [GreenhouseDecisionModel.decide, GreenhouseDecisionModel.heater2,
      GreenhouseDecisionModel.heater1, GreenhouseDecisionModel.vent1,
      GreenhouseDecisionModel.vent2, GreenhouseDecisionModel.vent3,
      GreenhouseDecisionModel.vent7, defaultThresholds]

/-- Claim C1 (amended): for every thresholds configuration, input Reading and
equipment registry state, if the reading's humidity is at most `HUM_MAX` then
the Command returned by `GreenhouseDecisionModel.decide` never has heater and
ventilation both ON.  (When humidity exceeds `HUM_MAX` the humidity rule may
re-enable ventilation while the heater is held on by hysteresis.) -/
theorem heater_vent_mutex_amended (cfg : GreenhouseThresholds) (p : Reading) (st : Registry)
    (hhum : p.humidity ≤ cfg.HUM_MAX) :
    ¬((GreenhouseDecisionModel.decide cfg p st).heater = true ∧
      (GreenhouseDecisionModel.decide cfg p st).ventilation = true) := by
  rintro ⟨hh, hv⟩
  have h3 : GreenhouseDecisionModel.vent3 cfg p st = true :=
    GreenhouseDecisionModel.vent7_eq_true_imp_vent3 cfg p st hv
  have h32 : GreenhouseDecisionModel.vent3 cfg p st = GreenhouseDecisionModel.vent2 cfg p st := by
    unfold GreenhouseDecisionModel.vent3
    rw [if_neg (not_lt.mpr hhum)]
  exact GreenhouseDecisionModel.heater2_vent2_mutex cfg p st ⟨hh, h32 ▸ h3⟩

/-- Witness for the amended claim C1 at a concrete input (humidity 70 ≤ HUM_MAX). -/
theorem heater_vent_mutex_amended_witness :
    (⟨21, 70, 50, 10000, 500, Weather.Clear_sky, 0⟩ : Reading).humidity ≤
        defaultThresholds.HUM_MAX ∧
    ¬((GreenhouseDecisionModel.decide defaultThresholds
        ⟨21, 70, 50, 10000, 500, Weather.Clear_sky, 0⟩
        ⟨true, false, false, false, false, false, false⟩).heater = true ∧
      (GreenhouseDecisionModel.decide defaultThresholds
        ⟨21, 70, 50, 10000, 500, Weather.Clear_sky, 0⟩
        ⟨true, false, false, false, false, false, false⟩).ventilation = true) :=
  ⟨by norm_num [defaultThresholds],
   heater_vent_mutex_amended defaultThresholds _ _ (by norm_num [defaultThresholds])⟩

/-- Claim C6: for every thresholds configuration, input Reading and registry
state, if ventilation is ON in the Command returned by `decide`, then
co2_injector is OFF in that same Command, regardless of the CO2 level. -/
theorem vent_on_implies_co2_off (cfg : GreenhouseThresholds) (p : Reading) (st : Registry) :
    (GreenhouseDecisionModel.decide cfg p st).ventilation = true →
    (GreenhouseDecisionModel.decide cfg p st).co2_injector = false := by
  intro hv
  have h3 : GreenhouseDecisionModel.vent3 cfg p st = true :=
    GreenhouseDecisionModel.vent7_eq_true_imp_vent3 cfg p st hv
  show GreenhouseDecisionModel.co25 cfg p st = false
  unfold GreenhouseDecisionModel.co25
  simp [h3]

/-- Witness for claim C6: a hot reading (30 °C) turns ventilation on, and the
CO2 injector is off in the same command even though CO2 (300) is far below CO2_MIN. -/
theorem vent_on_implies_co2_off_witness :
    (GreenhouseDecisionModel.decide defaultThresholds
        ⟨30, 60, 50, 10000, 300, Weather.Sunny, 0⟩ Registry.allOff).ventilation = true ∧
    (GreenhouseDecisionModel.decide defaultThresholds
        ⟨30, 60, 50, 10000, 300, Weather.Sunny, 0⟩ Registry.allOff).co2_injector = false :=
  ⟨by decide, vent_on_implies_co2_off defaultThresholds _ _ (by decide)⟩

/-- Claim C8: applying a Command twice in succession leaves the registry exactly
as applying it once — `apply` overwrites every equipment row with the command's
booleans, so it is idempotent. -/
theorem apply_command_idempotent (c : Command) (r : Registry) :
    applyCommand c (applyCommand c r) = applyCommand c r := rfl

/-- Claim C10: no weather regime appears in its own successor list, so every
executed weather transition strictly changes the regime. -/
theorem weather_transition_strict :
    (∀ w pick : Weather,
        pick ∈ GreenhouseDataGenerator.WEATHER_TRANSITIONS w → pick ≠ w) ∧
    (∀ (s : GreenhouseDataGenerator.GenState) (reg : Registry) (pick : Weather),
        (s.tick + 1) % 40 = 0 →
        pick ∈ GreenhouseDataGenerator.WEATHER_TRANSITIONS s.weather →
        (GreenhouseDataGenerator.stepState s reg pick).weather ≠ s.weather) := by
  have h1 : ∀ w pick : Weather,
      pick ∈ GreenhouseDataGenerator.WEATHER_TRANSITIONS w → pick ≠ w := by
    intro w pick hmem heq
    subst heq
    cases pick <;> simp [GreenhouseDataGenerator.WEATHER_TRANSITIONS] at hmem
  refine ⟨h1, ?_⟩
  intro s reg pick hmod hp
  have hw : (GreenhouseDataGenerator.stepState s reg pick).weather = pick := by
    simp [GreenhouseDataGenerator.stepState, hmod]
  rw [hw]
  exact h1 s.weather pick hp

open GreenhouseDataGenerator in
/-- Claim C2: along every run of the generator (any starting configuration and
admissible draws, any registry evolution, any admissible weather picks and
noise draws), the Reading emitted by `generate_reading` has every metric within
its clamp bound: temperature in [0,50], humidity in [0,100], soil_moisture in
[0,100], light_intensity in [0,100000], co2_concentration in [300,2000]. -/
theorem generate_reading_within_bounds (s : GenState) (reg : Registry) (pick : Weather)
    (e : NoiseVec) (hs : Reachable s) (hpick : pick ∈ WEATHER_TRANSITIONS s.weather)
    (he : NoiseOK e) :
    ReadingInBounds (generateReading s reg pick e).2 := by
  obtain ⟨he1, he2, he3, he4, he5, he6, he7, he8, he9, he10⟩ := he
  have hinv := INV_step s reg pick (INV_of_reachable s hs) hpick
  obtain ⟨ht0, ht1, hh0, hh1, hs0, hs1, hl0, hl1, hc0, hc1, hc2, hrain, hnrain⟩ := hinv
  have hc1844 : (stepState s reg pick).metrics.co2_concentration ≤ 1844 := by
    refine hc2 ?_
    show 1 ≤ s.tick + 1
    omega
  have hsoilB : (stepState s reg pick).metrics.soil_moisture ≤ 983295/10000 := by
    by_cases hr : (stepState s reg pick).weather = Weather.Rainy
    · have h1 := hrain hr
      have hpow : ((19:ℚ)/20) ^ 40 ≤ ((19:ℚ)/20) ^ ((stepState s reg pick).tick % 40 + 1) :=
        pow_le_pow_of_le_one (by norm_num) (by norm_num) (by omega)
      have h2 := c40_lower
      linarith
    · have h1 := hnrain hr
      have hpow : ((19:ℚ)/20) ^ ((stepState s reg pick).tick % 40 + 1) ≤ ((19:ℚ)/20) ^ 1 :=
        pow_le_pow_of_le_one (by norm_num) (by norm_num) (by omega)
      rw [pow_one] at hpow
      linarith
  show ReadingInBounds (createReading (stepState s reg pick) e)
  unfold ReadingInBounds createReading
  dsimp only
  refine ⟨?_, ?_, ?_, ?_, ?_, ?_, ?_, ?_, ?_, ?_⟩
  · have := addNoise_lower (stepState s reg pick).metrics.temperature 0 (1/2) e.temperature
      le_rfl ht0 (by norm_num) (by norm_num) he1
    linarith
  · have := addNoise_upper (stepState s reg pick).metrics.temperature (79/2) (1/2) e.temperature
      ht0 ht1 (by norm_num) he2
    linarith
  · have := addNoise_lower (stepState s reg pick).metrics.humidity 0 1 e.humidity
      le_rfl hh0 (by norm_num) (by norm_num) he3
    linarith
  · have := addNoise_upper (stepState s reg pick).metrics.humidity 95 1 e.humidity
      hh0 hh1 (by norm_num) he4
    linarith
  · have := addNoise_lower (stepState s reg pick).metrics.soil_moisture 0 (3/2) e.soil_moisture
      le_rfl hs0 (by norm_num) (by norm_num) he5
    linarith
  · have := addNoise_upper (stepState s reg pick).metrics.soil_moisture (983295/10000) (3/2)
      e.soil_moisture hs0 hsoilB (by norm_num) he6
    linarith
  · have := addNoise_lower (stepState s reg pick).metrics.light_intensity 0 2 e.light_intensity
      le_rfl hl0 (by norm_num) (by norm_num) he7
    linarith
  · have := addNoise_upper (stepState s reg pick).metrics.light_intensity 60000 2 e.light_intensity
      hl0 hl1 (by norm_num) he8
    linarith
  · have := addNoise_lower (stepState s reg pick).metrics.co2_concentration 330 1
      e.co2_concentration (by norm_num) hc0 (by norm_num) (by norm_num) he9
    linarith
  · have := addNoise_upper (stepState s reg pick).metrics.co2_concentration 1844 1
      e.co2_concentration (by linarith) hc1844 (by norm_num) he10
    linarith

open GreenhouseDataGenerator in
/-- Witness for claim C2: a concrete first step from the `optimal` configuration. -/
theorem generate_reading_within_bounds_witness :
    DrawOK (configFor "optimal") ⟨0, 0, 0, 0, 0, Weather.Sunny, Registry.allOff⟩ ∧
    Weather.Cloudy ∈ WEATHER_TRANSITIONS
      (initState "optimal" ⟨0, 0, 0, 0, 0, Weather.Sunny, Registry.allOff⟩).weather ∧
    NoiseOK ⟨0, 0, 0, 0, 0⟩ ∧
    ReadingInBounds
      (generateReading (initState "optimal" ⟨0, 0, 0, 0, 0, Weather.Sunny, Registry.allOff⟩)
        Registry.allOff Weather.Cloudy ⟨0, 0, 0, 0, 0⟩).2 := by
  have hd : DrawOK (configFor "optimal") ⟨0, 0, 0, 0, 0, Weather.Sunny, Registry.allOff⟩ := by
    refine ⟨?_, ?_, ?_, ?_, ?_, ?_⟩ <;> trivial
  have hp : Weather.Cloudy ∈ WEATHER_TRANSITIONS
      (initState "optimal" ⟨0, 0, 0, 0, 0, Weather.Sunny, Registry.allOff⟩).weather := by
    decide
  have hn : NoiseOK ⟨0, 0, 0, 0, 0⟩ := by
    refine ⟨?_, ?_, ?_, ?_, ?_, ?_, ?_, ?_, ?_, ?_⟩ <;> norm_num
  exact ⟨hd, hp, hn,
    generate_reading_within_bounds _ _ _ _ (Reachable.init "optimal" _ hd) hp hn⟩

open GreenhouseDataGenerator in
/-- Claim C3: on every step the target of each metric is the weather regime's
target plus the sum of the per-metric deltas of the active equipment, and each
metric moves toward its target by `current += (target - current) * rate[metric]`
with a fixed per-metric rate in (0,1); no metric's update reads any other
metric's value. -/
theorem targets_and_convergence_match_spec (w : Weather) (reg : Registry) (t m : MetricVec) :
    calculateTargets w reg = targetFromSpec w reg ∧
    (moveTowardTargets t m).temperature
      = m.temperature + (t.temperature - m.temperature) * (8/100) ∧
    (moveTowardTargets t m).humidity
      = m.humidity + (t.humidity - m.humidity) * (10/100) ∧
    (moveTowardTargets t m).soil_moisture
      = m.soil_moisture + (t.soil_moisture - m.soil_moisture) * (5/100) ∧
    (moveTowardTargets t m).light_intensity
      = m.light_intensity + (t.light_intensity - m.light_intensity) * (15/100) ∧
    (moveTowardTargets t m).co2_concentration
      = m.co2_concentration + (t.co2_concentration - m.co2_concentration) * (12/100) ∧
    (0 < CONVERGENCE_RATES.temperature ∧ CONVERGENCE_RATES.temperature < 1) ∧
    (0 < CONVERGENCE_RATES.humidity ∧ CONVERGENCE_RATES.humidity < 1) ∧
    (0 < CONVERGENCE_RATES.soil_moisture ∧ CONVERGENCE_RATES.soil_moisture < 1) ∧
    (0 < CONVERGENCE_RATES.light_intensity ∧ CONVERGENCE_RATES.light_intensity < 1) ∧
    (0 < CONVERGENCE_RATES.co2_concentration ∧ CONVERGENCE_RATES.co2_concentration < 1) ∧
    (∀ a b c d : ℚ, (moveTowardTargets t ⟨m.temperature, a, b, c, d⟩).temperature
      = (moveTowardTargets t m).temperature) ∧
    (∀ a b c d : ℚ, (moveTowardTargets t ⟨a, m.humidity, b, c, d⟩).humidity
      = (moveTowardTargets t m).humidity) ∧
    (∀ a b c d : ℚ, (moveTowardTargets t ⟨a, b, m.soil_moisture, c, d⟩).soil_moisture
      = (moveTowardTargets t m).soil_moisture) ∧
    (∀ a b c d : ℚ, (moveTowardTargets t ⟨a, b, c, m.light_intensity, d⟩).light_intensity
      = (moveTowardTargets t m).light_intensity) ∧
    (∀ a b c d : ℚ, (moveTowardTargets t ⟨a, b, c, d, m.co2_concentration⟩).co2_concentration
      = (moveTowardTargets t m).co2_concentration) := by
  refine ⟨calculateTargets_eq_spec w reg, rfl, rfl, rfl, rfl, rfl, ?_, ?_, ?_, ?_, ?_,
    fun a b c d => rfl, fun a b c d => rfl, fun a b c d => rfl,
    fun a b c d => rfl, fun a b c d => rfl⟩ <;>
    norm_num [CONVERGENCE_RATES]

open GreenhouseDataGenerator in
/-- Claim C4: the sensor noise affects only the emitted Reading.  The state
`generate_reading` leaves behind is identical for every noise draw, equals the
pre-noise clamped convergence result, and is exactly what the next call's
convergence starts from; the reading is that state plus noise. -/
theorem noise_only_affects_reading (s : GenState) (reg reg2 : Registry)
    (pick pick2 : Weather) (e e2 e3 : NoiseVec) :
    (generateReading s reg pick e).1 = (generateReading s reg pick e2).1 ∧
    (generateReading s reg pick e).1.metrics =
      constrainValues (moveTowardTargets
        (calculateTargets (if (s.tick + 1) % 40 = 0 then pick else s.weather) reg) s.metrics) ∧
    (generateReading s reg pick e).2 = createReading (stepState s reg pick) e ∧
    (generateReading (generateReading s reg pick e).1 reg2 pick2 e3).1 =
      stepState (stepState s reg pick) reg2 pick2 :=
  ⟨rfl, rfl, rfl, rfl⟩

/-- Claim C5: in the closed loop where each tick's Command is applied to the
registry before the next `decide` call, once `decide` turns the heater ON for a
reading below `TEMP_MIN`, the heater stays ON in every subsequent Command while
the intervening readings stay at or below `TEMP_MIN + TEMP_BUFFER` (even if
they fluctuate above `TEMP_MIN`). -/
theorem heater_no_chatter (readings : ℕ → Reading) (st0 : Registry) (k n : ℕ)
    (hkn : k ≤ n)
    (hcold : (readings k).temperature < defaultThresholds.TEMP_MIN)
    (hmid : ∀ j, k < j → j ≤ n →
      (readings j).temperature ≤ defaultThresholds.TEMP_MIN + defaultThresholds.TEMP_BUFFER) :
    (loopCommand defaultThresholds readings st0 n).heater = true := by
  induction n, hkn using Nat.le_induction with
  | base =>
      exact GreenhouseDecisionModel.decide_heater_on_of_cold _ _ hcold
  | succ n hn ih =>
      have hreg : (loopRegistry defaultThresholds readings st0 (n + 1)).heater = true := by
        show (GreenhouseDecisionModel.decide defaultThresholds (readings n)
          (loopRegistry defaultThresholds readings st0 n)).heater = true
        exact ih (fun j h1 h2 => hmid j h1 (by omega))
      exact GreenhouseDecisionModel.decide_heater_stays _ _ hreg
        (hmid (n + 1) (by omega) (by omega))

/-- Witness for claim C5: a constant cold sequence (15 °C) keeps the heater ON
at tick 2 of the closed loop. -/
theorem heater_no_chatter_witness :
    (⟨15, 60, 50, 10000, 500, Weather.Clear_sky, 0⟩ : Reading).temperature <
        defaultThresholds.TEMP_MIN ∧
    (loopCommand defaultThresholds (fun _ => ⟨15, 60, 50, 10000, 500, Weather.Clear_sky, 0⟩)
        Registry.allOff 2).heater = true :=
  ⟨by norm_num [defaultThresholds],
   heater_no_chatter (fun _ => ⟨15, 60, 50, 10000, 500, Weather.Clear_sky, 0⟩)
     Registry.allOff 0 2 (by omega) (by norm_num [defaultThresholds])
     (fun j _ _ => by norm_num [defaultThresholds])⟩

open GreenhouseDataGenerator in
/-- Claim C7: a weather transition always lands inside the current regime's
successor list (from `Rainy` only `Cloudy` or `Windy`, each with probability
1/2 under the uniform choice and both attainable), and a regime with no entry
in the transition table transitions to `Clear_sky`. -/
theorem weather_transition_choice :
    (∀ (w : String) (i : ℕ), i < (possibleWeathers w).length →
        changeWeatherStr w i ∈ possibleWeathers w) ∧
    possibleWeathers "Rainy" = ["Cloudy", "Windy"] ∧
    (∀ i, i < (possibleWeathers "Rainy").length →
        changeWeatherStr "Rainy" i ∈ (["Cloudy", "Windy"] : List String)) ∧
    (∀ t ∈ (["Cloudy", "Windy"] : List String),
        ∃ i, i < (possibleWeathers "Rainy").length ∧ changeWeatherStr "Rainy" i = t) ∧
    choiceProb (possibleWeathers "Rainy") "Cloudy" = 1/2 ∧
    choiceProb (possibleWeathers "Rainy") "Windy" = 1/2 ∧
    (∀ w : String, WEATHER_TRANSITIONS_STR.lookup w = none →
        possibleWeathers w = ["Clear_sky"] ∧ ∀ i, changeWeatherStr w i = "Clear_sky") := by
  have hrainy : possibleWeathers "Rainy" = ["Cloudy", "Windy"] := rfl
  refine ⟨?_, hrainy, ?_, ?_, ?_, ?_, ?_⟩
  · intro w i h
    unfold changeWeatherStr
    rw [List.getD_eq_getElem _ _ h]
    exact List.getElem_mem h
  · intro i h
    have h2 : i < 2 := h
    interval_cases i <;> decide
  · intro t ht
    simp only [List.mem_cons, List.not_mem_nil, or_false] at ht
    rcases ht with rfl | rfl
    · exact ⟨0, by decide, by decide⟩
    · exact ⟨1, by decide, by decide⟩
  · rw [hrainy]
    unfold choiceProb
    rw [show List.count "Cloudy" (["Cloudy", "Windy"] : List String) = 1 from rfl]
    norm_num
  · rw [hrainy]
    unfold choiceProb
    rw [show List.count "Windy" (["Cloudy", "Windy"] : List String) = 1 from rfl]
    norm_num
  · intro w hw
    have hpw : possibleWeathers w = ["Clear_sky"] := by
      unfold possibleWeathers
      rw [hw]
      rfl
    refine ⟨hpw, ?_⟩
    intro i
    unfold changeWeatherStr
    rw [hpw]
    match i with
    | 0 => rfl
    | Nat.succ n => simp [List.getD]

open GreenhouseDataGenerator in
/-- Witness for claim C7: concrete draws from `Rainy`, from `Sunny`, and from an
unknown regime name. -/
theorem weather_transition_choice_witness :
    changeWeatherStr "Rainy" 0 ∈ (["Cloudy", "Windy"] : List String) ∧
    changeWeatherStr "Sunny" 2 ∈ possibleWeathers "Sunny" ∧
    changeWeatherStr "Foggy" 7 = "Clear_sky" :=
  ⟨weather_transition_choice.2.2.1 0 (by decide),
   weather_transition_choice.1 "Sunny" 2 (by decide),
   (weather_transition_choice.2.2.2.2.2.2 "Foggy" (by decide)).2 7⟩

open GreenhouseDataGenerator in
/-- Claim C9: for any configuration name outside the enumerated set,
`initialize` does not fail: it produces exactly the state, equipment registry
and first Reading of the `optimal` configuration. -/
theorem unknown_config_defaults_to_optimal (name : String) (d : Draw) (e : NoiseVec)
    (h : name ∉ STARTING_CONFIG_KEYS) :
    initState name d = initState "optimal" d ∧
    initRegistry name d = initRegistry "optimal" d ∧
    initReading name d e = initReading "optimal" d e := by
  have hc : configFor name = optimalConfig := by
    simp only [STARTING_CONFIG_KEYS, List.mem_cons, List.not_mem_nil, or_false,
      not_or] at h
    obtain ⟨h1, h2, h3, h4, h5, h6, h7, h8, h9, h10⟩ := h
    unfold configFor
    rw [if_neg h1, if_neg h2, if_neg h3, if_neg h4, if_neg h5, if_neg h6, if_neg h7,
      if_neg h8, if_neg h9, if_neg h10]
  have hopt : configFor "optimal" = optimalConfig := by
    norm_num [configFor]
  have hstate : initState name d = initState "optimal" d := by
    unfold initState
    rw [hc, hopt]
  have hreg : initRegistry name d = initRegistry "optimal" d := by
    unfold initRegistry
    rw [hc, hopt]
  refine ⟨hstate, hreg, ?_⟩
  unfold initReading
  rw [hstate]

open GreenhouseDataGenerator in
/-- Witness for claim C9: the unknown name "bogus" initializes exactly like "optimal". -/
theorem unknown_config_defaults_to_optimal_witness :
    "bogus" ∉ STARTING_CONFIG_KEYS ∧
    initState "bogus" ⟨1, 2, 3, 4, 5, Weather.Rainy, Registry.allOff⟩ =
      initState "optimal" ⟨1, 2, 3, 4, 5, Weather.Rainy, Registry.allOff⟩ ∧
    initRegistry "bogus" ⟨1, 2, 3, 4, 5, Weather.Rainy, Registry.allOff⟩ =
      initRegistry "optimal" ⟨1, 2, 3, 4, 5, Weather.Rainy, Registry.allOff⟩ ∧
    initReading "bogus" ⟨1, 2, 3, 4, 5, Weather.Rainy, Registry.allOff⟩ ⟨0, 0, 0, 0, 0⟩ =
      initReading "optimal" ⟨1, 2, 3, 4, 5, Weather.Rainy, Registry.allOff⟩ ⟨0, 0, 0, 0, 0⟩ := by
  have h := unknown_config_defaults_to_optimal "bogus"
    ⟨1, 2, 3, 4, 5, Weather.Rainy, Registry.allOff⟩ ⟨0, 0, 0, 0, 0⟩ (by decide)
  exact ⟨by decide, h.1, h.2.1, h.2.2⟩

/-- Witness for claim C10: a transition out of Rainy at tick 40 changes the regime. -/
theorem weather_transition_strict_witness :
    Weather.Cloudy ∈ GreenhouseDataGenerator.WEATHER_TRANSITIONS Weather.Rainy ∧
    Weather.Cloudy ≠ Weather.Rainy ∧
    (39 + 1) % 40 = 0 ∧
    (GreenhouseDataGenerator.stepState ⟨39, Weather.Rainy, ⟨0, 0, 0, 0, 0⟩⟩
        Registry.allOff Weather.Cloudy).weather ≠ Weather.Rainy :=
  ⟨by decide,
   weather_transition_strict.1 Weather.Rainy Weather.Cloudy (by decide),
   by norm_num,
   weather_transition_strict.2 ⟨39, Weather.Rainy, ⟨0, 0, 0, 0, 0⟩⟩
     Registry.allOff Weather.Cloudy (by norm_num) (by decide)⟩
